import Mathlib

/-!
Verification development for the prompt adaptation layer of
`mlflow/store/model_registry/abstract_store.py`: the Prompt/PromptVersion
view over the generic registered-model store, the linked-prompts
tag-merge protocol, and the model-version creation poller.

The Python source manipulates JSON text through `json.loads` / `json.dumps`
and compares parsed values with Python `==`.  We embed a JSON value type
together with an executable parser, serializer and equality that model the
fragment of Python's `json` module exercised by the linked-prompts tag
protocol (spec section 6: the tag holds a JSON array of objects with string
fields).  Floating-point literals are carried as raw text: the protocol
never produces them, and normalising Python float repr is out of scope.
-/

namespace MlflowRegistry

/-- Opening curly brace character, used when building or matching JSON text. -/
def lbrace : Char := Char.ofNat 123

/-- Closing curly brace character. -/
def rbrace : Char := Char.ofNat 125

/-- Single-quote character as a string, used in error messages copied from
the Python f-strings of the source. -/
def sq : String := String.singleton (Char.ofNat 39)

/-- JSON values as produced by Python `json.loads`.  Objects keep the key
order of the input text with duplicate keys collapsed dict-style (first
position, last value); `floatLit` carries the raw text of a numeric literal
with a fraction or exponent part. -/
inductive Json where
  | null : Json
  | bool (b : Bool) : Json
  | num (n : Int) : Json
  | floatLit (raw : String) : Json
  | str (s : String) : Json
  | arr (elements : List Json) : Json
  | obj (fields : List (String × Json)) : Json

/-- Lookup of a key in a parsed JSON object (Python dict indexing; parsed
objects have unique keys). -/
def lookupField : List (String × Json) → String → Option Json
  | [], _ => none
  | (k, v) :: rest, key => if k = key then some v else lookupField rest key

mutual

/-- Python `==` on parsed JSON values: dictionaries compare as key-value
maps with insertion order ignored, lists compare pointwise. -/
def pyEq : Json → Json → Bool
  | .null, .null => true
  | .bool a, .bool b => a == b
  | .num a, .num b => a == b
  | .floatLit a, .floatLit b => a == b
  | .str a, .str b => a == b
  | .arr xs, .arr ys => pyEqList xs ys
  | .obj xs, .obj ys => xs.length == ys.length && pyEqFields xs ys
  | _, _ => false

/-- Pointwise Python `==` on JSON lists. -/
def pyEqList : List Json → List Json → Bool
  | [], [] => true
  | x :: xs, y :: ys => pyEq x y && pyEqList xs ys
  | _, _ => false

/-- Every field of the first object matches the corresponding field of the
second (looked up by key). -/
def pyEqFields : List (String × Json) → List (String × Json) → Bool
  | [], _ => true
  | (k, v) :: rest, ys =>
    (match lookupField ys k with
     | some w => pyEq v w
     | none => false) && pyEqFields rest ys

end

/-- Hexadecimal digit (lowercase), for `\uXXXX` escapes. -/
def hexDigit (n : Nat) : Char :=
  if n < 10 then Char.ofNat (48 + n) else Char.ofNat (97 + n - 10)

/-- Four-hex-digit unicode escape, as emitted by `json.dumps` with its
default `ensure_ascii=True`. -/
def uEscape (n : Nat) : String :=
  "\\u" ++ String.mk [hexDigit (n / 4096 % 16), hexDigit (n / 256 % 16),
    hexDigit (n / 16 % 16), hexDigit (n % 16)]

/-- Escape one character the way `json.dumps` does with `ensure_ascii=True`:
printable ASCII other than quote and backslash is literal, the short escapes
cover the usual control characters, everything else becomes `\uXXXX`
(a surrogate pair above the BMP). -/
def escChar (c : Char) : String :=
  if c = '"' then "\\\""
  else if c = '\\' then "\\\\"
  else if c = '\n' then "\\n"
  else if c = '\t' then "\\t"
  else if c = '\r' then "\\r"
  else if c = Char.ofNat 8 then "\\b"
  else if c = Char.ofNat 12 then "\\f"
  else if c.toNat < 32 then uEscape c.toNat
  else if c.toNat < 127 then String.singleton c
  else if c.toNat < 65536 then uEscape c.toNat
  else
    uEscape (55296 + (c.toNat - 65536) / 1024) ++ uEscape (56320 + (c.toNat - 65536) % 1024)

/-- JSON string literal for `s`, as emitted by `json.dumps`. -/
def quoteJson (s : String) : String :=
  "\"" ++ String.join (s.data.map escChar) ++ "\""

mutual

/-- Python `json.dumps` with its default separators (", " and ": ") and
`ensure_ascii=True`.  Raw float literals are emitted verbatim. -/
def dumps : Json → String
  | .null => "null"
  | .bool true => "true"
  | .bool false => "false"
  | .num n => toString n
  | .floatLit raw => raw
  | .str s => quoteJson s
  | .arr xs => "[" ++ dumpsArr xs ++ "]"
  | .obj kvs => String.singleton lbrace ++ dumpsObj kvs ++ String.singleton rbrace

/-- Comma-separated serialization of array elements. -/
def dumpsArr : List Json → String
  | [] => ""
  | [x] => dumps x
  | x :: xs => dumps x ++ ", " ++ dumpsArr xs

/-- Comma-separated serialization of object fields. -/
def dumpsObj : List (String × Json) → String
  | [] => ""
  | [(k, v)] => quoteJson k ++ ": " ++ dumps v
  | (k, v) :: kvs => quoteJson k ++ ": " ++ dumps v ++ ", " ++ dumpsObj kvs

end

/-- JSON whitespace accepted between tokens (space, tab, newline, carriage
return). -/
def isJsonWs (c : Char) : Bool :=
  c = ' ' || c = '\t' || c = '\n' || c = '\r'

/-- Drop leading JSON whitespace. -/
def skipWs : List Char → List Char
  | [] => []
  | c :: rest => if isJsonWs c then skipWs rest else c :: rest

/-- Value of one hexadecimal digit character. -/
def hexVal (c : Char) : Option Nat :=
  if '0' ≤ c ∧ c ≤ '9' then some (c.toNat - 48)
  else if 'a' ≤ c ∧ c ≤ 'f' then some (c.toNat - 87)
  else if 'A' ≤ c ∧ c ≤ 'F' then some (c.toNat - 55)
  else none

/-- Parse exactly four hexadecimal digits. -/
def parseU4 : List Char → Option (Nat × List Char)
  | a :: b :: c :: d :: rest =>
    match hexVal a, hexVal b, hexVal c, hexVal d with
    | some x, some y, some z, some w => some (4096 * x + 256 * y + 16 * z + w, rest)
    | _, _, _, _ => none
  | _ => none

/-- ASCII decimal digit test. -/
def isAsciiDigit (c : Char) : Bool := '0' ≤ c && c ≤ '9'

/-- Split a leading run of ASCII digits from the rest. -/
def spanDigits : List Char → List Char × List Char
  | [] => ([], [])
  | c :: rest =>
    if isAsciiDigit c then
      let p := spanDigits rest
      (c :: p.1, p.2)
    else ([], c :: rest)

/-- Numeric value of a digit run. -/
def digitsToNat (ds : List Char) : Nat :=
  ds.foldl (fun acc c => 10 * acc + (c.toNat - 48)) 0

/-- Parse an optional exponent part: returns the consumed characters and the
rest, the empty list when no exponent marker is present, `none` when an
exponent marker is present but malformed. -/
def parseExp : List Char → Option (List Char × List Char)
  | [] => some ([], [])
  | c :: rest =>
    if c = 'e' ∨ c = 'E' then
      let p : List Char × List Char :=
        match rest with
        | '+' :: r => ([('+' : Char)], r)
        | '-' :: r => ([('-' : Char)], r)
        | r => ([], r)
      match spanDigits p.2 with
      | ([], _) => none
      | (ds, r2) => some (c :: p.1 ++ ds, r2)
    else some ([], c :: rest)

/-- Parse a JSON number.  Integers become `Json.num`; numbers with a
fraction or exponent part become `Json.floatLit` carrying the raw text. -/
def parseNumber (cs : List Char) : Option (Json × List Char) :=
  let sp : List Char × List Char :=
    match cs with
    | '-' :: r => ([('-' : Char)], r)
    | _ => ([], cs)
  match spanDigits sp.2 with
  | ([], _) => none
  | (ds, rest) =>
    if ds.length > 1 && ds.head? == some '0' then none
    else
      match rest with
      | '.' :: r2 =>
        (match spanDigits r2 with
         | ([], _) => none
         | (fs, r3) =>
           match parseExp r3 with
           | none => none
           | some (es, r4) =>
             some (.floatLit (String.mk (sp.1 ++ ds ++ '.' :: fs ++ es)), r4))
      | _ =>
        match parseExp rest with
        | none => none
        | some ([], r4) =>
          some (.num (if sp.1.isEmpty then Int.ofNat (digitsToNat ds)
                      else -Int.ofNat (digitsToNat ds)), r4)
        | some (es, r4) => some (.floatLit (String.mk (sp.1 ++ ds ++ es)), r4)

/-- Insert a key-value pair with Python dict semantics: a duplicate key
keeps its original position and takes the new value. -/
def insertKV : List (String × Json) → String → Json → List (String × Json)
  | [], k, v => [(k, v)]
  | (k', v') :: rest, k, v =>
    if k' = k then (k', v) :: rest else (k', v') :: insertKV rest k v

mutual

/-- Parse the body of a JSON string literal after the opening quote,
handling the standard short escapes and `\uXXXX` with surrogate pairs. -/
def parseStrBody (fuel : Nat) (cs : List Char) (acc : String) :
    Option (String × List Char) :=
  match fuel with
  | 0 => none
  | fuel + 1 =>
    match cs with
    | [] => none
    | c :: rest =>
      if c = '"' then some (acc, rest)
      else if c = '\\' then
        match rest with
        | [] => none
        | e :: rest2 =>
          if e = '"' then parseStrBody fuel rest2 (acc.push '"')
          else if e = '\\' then parseStrBody fuel rest2 (acc.push '\\')
          else if e = '/' then parseStrBody fuel rest2 (acc.push '/')
          else if e = 'b' then parseStrBody fuel rest2 (acc.push (Char.ofNat 8))
          else if e = 'f' then parseStrBody fuel rest2 (acc.push (Char.ofNat 12))
          else if e = 'n' then parseStrBody fuel rest2 (acc.push '\n')
          else if e = 'r' then parseStrBody fuel rest2 (acc.push '\r')
          else if e = 't' then parseStrBody fuel rest2 (acc.push '\t')
          else if e = 'u' then
            match parseU4 rest2 with
            | none => none
            | some (n, rest3) =>
              if 55296 ≤ n ∧ n ≤ 56319 then
                match rest3 with
                | '\\' :: 'u' :: rest4 =>
                  (match parseU4 rest4 with
                   | some (m, rest5) =>
                     if 56320 ≤ m ∧ m ≤ 57343 then
                       parseStrBody fuel rest5
                         (acc.push (Char.ofNat (65536 + (n - 55296) * 1024 + (m - 56320))))
                     else none
                   | none => none)
                | _ => none
              else if 56320 ≤ n ∧ n ≤ 57343 then none
              else parseStrBody fuel rest3 (acc.push (Char.ofNat n))
          else none
      else if c.toNat < 32 then none
      else parseStrBody fuel rest (acc.push c)

/-- Parse one JSON value (leading whitespace allowed). -/
def parseVal (fuel : Nat) (cs : List Char) : Option (Json × List Char) :=
  match fuel with
  | 0 => none
  | fuel + 1 =>
    match skipWs cs with
    | [] => none
    | 'n' :: 'u' :: 'l' :: 'l' :: r => some (.null, r)
    | 't' :: 'r' :: 'u' :: 'e' :: r => some (.bool true, r)
    | 'f' :: 'a' :: 'l' :: 's' :: 'e' :: r => some (.bool false, r)
    | '"' :: r => (parseStrBody fuel r "").map fun p => (.str p.1, p.2)
    | '[' :: r =>
      (match skipWs r with
       | ']' :: r2 => some (.arr [], r2)
       | r2 => parseArrItems fuel r2 [])
    | c :: r =>
      if c = lbrace then
        match skipWs r with
        | [] => none
        | c2 :: r2 => if c2 = rbrace then some (.obj [], r2) else parseObjItems fuel (c2 :: r2) []
      else parseNumber (c :: r)

/-- Parse the comma-separated items of a non-empty JSON array. -/
def parseArrItems (fuel : Nat) (cs : List Char) (acc : List Json) :
    Option (Json × List Char) :=
  match fuel with
  | 0 => none
  | fuel + 1 =>
    match parseVal fuel cs with
    | none => none
    | some (v, rest) =>
      match skipWs rest with
      | ',' :: r2 => parseArrItems fuel r2 (acc ++ [v])
      | ']' :: r2 => some (.arr (acc ++ [v]), r2)
      | _ => none

/-- Parse the comma-separated fields of a non-empty JSON object, starting at
the first key. -/
def parseObjItems (fuel : Nat) (cs : List Char) (acc : List (String × Json)) :
    Option (Json × List Char) :=
  match fuel with
  | 0 => none
  | fuel + 1 =>
    match skipWs cs with
    | '"' :: r =>
      (match parseStrBody fuel r "" with
       | none => none
       | some (k, r2) =>
         match skipWs r2 with
         | ':' :: r3 =>
           (match parseVal fuel r3 with
            | none => none
            | some (v, r4) =>
              let acc2 := insertKV acc k v
              match skipWs r4 with
              | ',' :: r5 => parseObjItems fuel r5 acc2
              | c :: r5 => if c = rbrace then some (.obj acc2, r5) else none
              | [] => none)
         | _ => none)
    | _ => none

end

/-- Python `json.loads` on the modelled fragment: parse one value and
require only whitespace to follow.  Returns `none` where `json.loads`
raises `JSONDecodeError`. -/
def loads (s : String) : Option Json :=
  match parseVal (8 * s.length + 64) s.data with
  | some (j, rest) => if (skipWs rest).isEmpty then some j else none
  | none => none

/- ## Python `int()` on strings -/

/-- Python whitespace stripped by `int()`. -/
def isPyWs (c : Char) : Bool :=
  c = ' ' || c = '\t' || c = '\n' || c = '\r' || c = Char.ofNat 11 || c = Char.ofNat 12

/-- Strip leading and trailing Python whitespace. -/
def pyStripWs (cs : List Char) : List Char :=
  ((cs.dropWhile isPyWs).reverse.dropWhile isPyWs).reverse

/-- Continue a digit run after the first digit; a single underscore is
allowed between two digits. -/
def pyIntDigitsLoop : List Char → Nat → Option Nat
  | [], acc => some acc
  | '_' :: c :: rest, acc =>
    if isAsciiDigit c then pyIntDigitsLoop rest (10 * acc + (c.toNat - 48)) else none
  | ['_'], _ => none
  | c :: rest, acc =>
    if isAsciiDigit c then pyIntDigitsLoop rest (10 * acc + (c.toNat - 48)) else none

/-- Digit run of a Python integer literal (nonempty, underscores only
between digits). -/
def pyIntDigits : List Char → Option Nat
  | [] => none
  | c :: rest => if isAsciiDigit c then pyIntDigitsLoop rest (c.toNat - 48) else none

/-- Python `int(s)` for a string argument: optional surrounding whitespace,
optional sign, decimal digits with optional single underscores between
digits.  Returns `none` where `int()` raises `ValueError`. -/
def pyInt (s : String) : Option Int :=
  match pyStripWs s.data with
  | '-' :: rest => (pyIntDigits rest).map fun n => -Int.ofNat n
  | '+' :: rest => (pyIntDigits rest).map fun n => Int.ofNat n
  | cs => (pyIntDigits cs).map fun n => Int.ofNat n

/- ## Reserved tag keys and tag maps -/

/-- Modelled from the spec: the reserved prompt marker tag key (the
`mlflow.prompt.constants` module is not under src; the spec fixes the
marker value to the literal "true" and treats the key as opaque). -/
def IS_PROMPT_TAG_KEY : String := "mlflow.prompt.is_prompt"

/-- Modelled from the spec: reserved tag key holding the serialized
template body of a prompt version. -/
def PROMPT_TEXT_TAG_KEY : String := "mlflow.prompt.text"

/-- Modelled from the spec: reserved tag key naming the template kind. -/
def PROMPT_TYPE_TAG_KEY : String := "mlflow.prompt.type"

/-- Modelled from the spec: template kind value for plain-text templates. -/
def PROMPT_TYPE_TEXT : String := "text"

/-- Modelled from the spec: template kind value for structured chat
templates. -/
def PROMPT_TYPE_CHAT : String := "chat"

/-- Modelled from the spec: reserved tag key holding the serialized
response-format schema of a prompt version. -/
def RESPONSE_FORMAT_TAG_KEY : String := "mlflow.prompt.response_format"

/-- Modelled from the spec: reserved tag key on a trace, run or logged
model holding the JSON array of linked prompt entries. -/
def LINKED_PROMPTS_TAG_KEY : String := "mlflow.linkedPrompts"

/-- Tag maps are string-to-string dictionaries; we model them as
association lists with unique keys and Python `dict.get` lookup. -/
abbrev TagMap := List (String × String)

/-- Python `dict.get`: first binding of the key, if any. -/
def tagGet (m : TagMap) (key : String) : Option String :=
  match m with
  | [] => none
  | (k, v) :: rest => if k = key then some v else tagGet rest key

/- ## Errors

Python exceptions are modelled as values: `MlflowException` carries its
message and optional error-code name; every other exception kind is
`other`.  The source file treats exactly this split (`except
MlflowException` versus `except Exception`). -/

/-- Python exceptions raised or caught by the source: `MlflowException`
with message and optional error-code name, or any other exception. -/
inductive PyErr where
  | mlflow (message : String) (errorCode : Option String)
  | other (message : String)
deriving DecidableEq

/- ## Entities -/

/-- RegisteredModel entity as seen by this layer: `tags` is the internal
tag map (the entity field read as `rm._tags` in the source). -/
structure RegisteredModel where
  name : String
  description : Option String
  creationTimestamp : Int
  tags : TagMap
deriving DecidableEq

/-- Tag map minus the reserved prompt marker. -/
def stripPromptMarker (tags : TagMap) : TagMap :=
  tags.filter fun kv => !(kv.1 == IS_PROMPT_TAG_KEY)

/-- Modelled from the spec: the user-visible tag view of a registered model
(`rm.tags` in the source) is the entity tag map minus the reserved marker;
the entity class is not under src. -/
def RegisteredModel.userTags (rm : RegisteredModel) : TagMap :=
  stripPromptMarker rm.tags

/-- ModelVersion entity: version number, status, status message, source
location and tag map. -/
structure ModelVersion where
  name : String
  version : Int
  status : String
  statusMessage : Option String
  source : String
  tags : TagMap
deriving DecidableEq

/-- Prompt view (derived, no storage identity of its own). -/
structure Prompt where
  name : String
  description : Option String
  creationTimestamp : Int
  tags : TagMap
deriving DecidableEq

/-- PromptVersion view: backing version plus the parent prompt's
user-visible tags. -/
structure PromptVersion where
  name : String
  version : Int
  template : Option String
  promptTags : TagMap
deriving DecidableEq

/-- Modelled from the spec: `has_prompt_tag` from `registry_utils` (not
under src) checks whether a tag map contains the reserved marker key. -/
def hasPromptTag (tags : TagMap) : Bool :=
  tags.any fun kv => kv.1 == IS_PROMPT_TAG_KEY

/-- Modelled from the spec: `model_version_to_prompt_version` from
`registry_utils` (not under src) projects a marker-tagged model version to
the PromptVersion view, attaching the parent prompt's user-visible tags. -/
def modelVersionToPromptVersion (mv : ModelVersion) (promptTags : TagMap) : PromptVersion :=
  { name := mv.name
    version := mv.version
    template := tagGet mv.tags PROMPT_TEXT_TAG_KEY
    promptTags := promptTags }

/-- The versioned-entity store consumed by the adaptation layer (spec
section 6), as a record of fallible lookup operations.  An `Except.error`
result models the Python call raising that exception. -/
structure RegistryEnv where
  getRegisteredModel : String → Except PyErr RegisteredModel
  getModelVersion : String → Int → Except PyErr ModelVersion
  getModelVersionByAlias : String → String → Except PyErr ModelVersion

/- ## Prompt adaptation layer: `get_prompt` -/

/-- Translation of `AbstractStore.get_prompt` (source lines 647-686): fetch
the registered model, return `none` unless the internal tag map carries the
marker with value "true", otherwise build the Prompt view from the
user-visible tags.  The surrounding `except Exception: return None` turns
every raised exception into `none`. -/
def getPrompt (env : RegistryEnv) (name : String) : Option Prompt :=
  match env.getRegisteredModel name with
  | .error _ => none
  | .ok rm =>
    if tagGet rm.tags IS_PROMPT_TAG_KEY = some "true" then
      some { name := rm.name
             description := rm.description
             creationTimestamp := rm.creationTimestamp
             tags := rm.userTags }
    else none

/- ## Prompt adaptation layer: `get_prompt_version` -/

/-- Message of the hard "registered as a model, not a prompt" error
(source lines 788-792). -/
def modelNotPromptMsg (name : String) : String :=
  "Name `" ++ name ++ "` is registered as a model, not a prompt. " ++
    "Use get_model_version() or load_model() instead."

/-- Body of `AbstractStore.get_prompt_version` (source lines 775-811)
before the exception handlers: check the parent model's marker (hard
MlflowException when absent), resolve the version argument by integer
parse first with alias fallback, return `none` when the resolved version
lacks the marker, otherwise project to the PromptVersion view. -/
def getPromptVersionBody (env : RegistryEnv) (name version : String) :
    Except PyErr (Option PromptVersion) :=
  match env.getRegisteredModel name with
  | .error e => .error e
  | .ok rm =>
    if tagGet rm.tags IS_PROMPT_TAG_KEY = some "true" then
      match (match pyInt version with
             | some n => env.getModelVersion name n
             | none => env.getModelVersionByAlias name version) with
      | .error e => .error e
      | .ok mv =>
        if hasPromptTag mv.tags then
          .ok (some (modelVersionToPromptVersion mv rm.userTags))
        else .ok none
    else .error (.mlflow (modelNotPromptMsg name) (some "INVALID_PARAMETER_VALUE"))

/-- Translation of `AbstractStore.get_prompt_version` (source lines
761-816) including its exception handlers: `except MlflowException: raise`
re-raises, `except Exception: return None` downgrades every other
exception to an absent result. -/
def getPromptVersion (env : RegistryEnv) (name version : String) :
    Except PyErr (Option PromptVersion) :=
  match getPromptVersionBody env name version with
  | .ok r => .ok r
  | .error (.mlflow m c) => .error (.mlflow m c)
  | .error (.other _) => .ok none

/-- Translation of `AbstractStore.get_prompt_version_by_alias` (source
lines 836-849): a direct delegation to `get_prompt_version` with the alias
string as the version argument. -/
def getPromptVersionByAlias (env : RegistryEnv) (name aliasName : String) :
    Except PyErr (Option PromptVersion) :=
  getPromptVersion env name aliasName

/-- Written from the words of the spec and of claim C9, for the refinement
comparison: the alias argument is always resolved through the store alias
lookup (`get_model_version_by_alias`), never treated as a version number,
with the same surrounding prompt checks, projection and exception handling
as `get_prompt_version`. -/
def getPromptVersionByAliasSpec (env : RegistryEnv) (name aliasName : String) :
    Except PyErr (Option PromptVersion) :=
  match (match env.getRegisteredModel name with
         | .error e => .error e
         | .ok rm =>
           if tagGet rm.tags IS_PROMPT_TAG_KEY = some "true" then
             match env.getModelVersionByAlias name aliasName with
             | .error e => .error e
             | .ok mv =>
               if hasPromptTag mv.tags then
                 .ok (some (modelVersionToPromptVersion mv rm.userTags))
               else .ok none
           else .error (.mlflow (modelNotPromptMsg name) (some "INVALID_PARAMETER_VALUE")) :
         Except PyErr (Option PromptVersion)) with
  | .ok r => .ok r
  | .error (.mlflow m c) => .error (.mlflow m c)
  | .error (.other _) => .ok none

/- ## Prompt adaptation layer: integer-only version arguments -/

/-- Error raised by the three integer-only prompt-version operations on a
non-integer version string.  The source raises `MlflowException(f"Invalid
version number: {version}")`; the spec's error taxonomy (section 7)
classifies it as the invalid-argument kind. -/
def invalidVersionErr (version : String) : PyErr :=
  .mlflow ("Invalid version number: " ++ version) none

/-- Translation of `AbstractStore.delete_prompt_version` (source lines
818-834): parse the version as an integer or fail, then delegate to
`delete_model_version`; the `ok` value is the delegated call's
(name, version) argument pair. -/
def deletePromptVersion (name version : String) : Except PyErr (String × Int) :=
  match pyInt version with
  | none => .error (invalidVersionErr version)
  | some n => .ok (name, n)

/-- Translation of `AbstractStore.set_prompt_version_tag` (source lines
943-966): parse the version as an integer or fail, then delegate to
`set_model_version_tag`; the `ok` value is the delegated call's
(name, version, key, value) arguments. -/
def setPromptVersionTag (name version key value : String) :
    Except PyErr (String × Int × String × String) :=
  match pyInt version with
  | none => .error (invalidVersionErr version)
  | some n => .ok (name, n, key, value)

/-- Translation of `AbstractStore.delete_prompt_version_tag` (source lines
968-987): parse the version as an integer or fail, then delegate to
`delete_model_version_tag`; the `ok` value is the delegated call's
(name, version, key) arguments. -/
def deletePromptVersionTag (name version key : String) :
    Except PyErr (String × Int × String) :=
  match pyInt version with
  | none => .error (invalidVersionErr version)
  | some n => .ok (name, n, key)

/- ## Prompt adaptation layer: `create_prompt_version` -/

/-- Template argument of `create_prompt_version`: a plain text string or a
list of chat-message dictionaries. -/
inductive Template where
  | text (s : String)
  | chat (messages : List Json)

/-- Response-format argument of `create_prompt_version`: a pydantic model
(always truthy in Python) or a plain dictionary. -/
inductive ResponseFormat where
  | pydanticModel (schema : Json)
  | dict (value : Json)

/-- Python truthiness of a JSON-shaped value (empty dict, empty list,
empty string, zero, False and None are falsy). -/
def pyTruthyJson : Json → Bool
  | .obj kvs => !kvs.isEmpty
  | .arr xs => !xs.isEmpty
  | .str s => !(s == "")
  | .num n => !(n == 0)
  | .bool b => b
  | .floatLit _ => true
  | .null => false

/-- Python truthiness of the optional response-format argument, as tested
by `if response_format:` in the source. -/
def responseFormatTruthy : Option ResponseFormat → Bool
  | none => false
  | some (.pydanticModel _) => true
  | some (.dict v) => pyTruthyJson v

/-- Modelled from the spec:
`PromptVersion.convert_response_format_to_dict` (not under src) resolves
the response format to its schema dictionary; a plain dictionary is passed
through. -/
def convertResponseFormatToDict : ResponseFormat → Json
  | .pydanticModel schema => schema
  | .dict value => value

/-- Tags appended for the response-format argument (source lines 731-739):
present exactly when the argument is Python-truthy. -/
def responseFormatTags (rf : Option ResponseFormat) : TagMap :=
  match rf with
  | none => []
  | some r =>
    if responseFormatTruthy (some r) then
      [(RESPONSE_FORMAT_TAG_KEY, dumps (convertResponseFormatToDict r))]
    else []

/-- Tags appended for the template argument (source lines 723-730): a
string template is stored verbatim with kind "text"; a structured template
is JSON-serialized with kind "chat". -/
def templateTags : Template → TagMap
  | .text s => [(PROMPT_TEXT_TAG_KEY, s), (PROMPT_TYPE_TAG_KEY, PROMPT_TYPE_TEXT)]
  | .chat messages =>
    [(PROMPT_TEXT_TAG_KEY, dumps (.arr messages)), (PROMPT_TYPE_TAG_KEY, PROMPT_TYPE_CHAT)]

/-- Arguments passed to `create_model_version` by
`create_prompt_version`. -/
structure CreateModelVersionRequest where
  name : String
  source : String
  tags : TagMap
  description : Option String
deriving DecidableEq

/-- Translation of the version-construction part of
`AbstractStore.create_prompt_version` (source lines 719-750): the tag list
passed to `create_model_version` is the reserved marker, then the template
tags, then the response-format tag when the argument is truthy, then the
caller's tags; the source field is the fixed sentinel "prompt-template". -/
def createPromptVersionRequest (name : String) (template : Template)
    (description : Option String) (tags : Option TagMap)
    (responseFormat : Option ResponseFormat) : CreateModelVersionRequest :=
  { name := name
    source := "prompt-template"
    tags := (IS_PROMPT_TAG_KEY, "true") ::
      (templateTags template ++ responseFormatTags responseFormat ++ tags.getD [])
    description := description }

/- ## Link merge protocol -/

/-- Link entry built for a prompt version (source lines 921-927 and
1013-1016): a JSON object with the prompt name and the string-encoded
version number. -/
def linkEntryOfPV (pv : PromptVersion) : Json :=
  .obj [("name", .str pv.name), ("version", .str (toString pv.version))]

/-- Python `new_prompt_entry in parsed_prompts_tag_value`: some element of
the current array compares equal (list containment iterates the array
elements on the left of `==`). -/
def entryAlreadyLinked (current : List Json) (entry : Json) : Bool :=
  current.any fun existing => pyEq existing entry

/-- The append loop of `_update_linked_prompts_tag` (source lines
1111-1114): append each new entry unless an equal entry is already in the
array built so far. -/
def mergeEntries (parsed : List Json) (newEntries : List Json) : List Json :=
  newEntries.foldl
    (fun acc entry => if entryAlreadyLinked acc entry then acc else acc ++ [entry]) parsed

/-- Message of the non-array-format error (source lines 1101-1103). -/
def invalidFormatMsg (currentTagValue : String) : String :=
  "Invalid format for " ++ sq ++ LINKED_PROMPTS_TAG_KEY ++ sq ++ " tag: " ++ currentTagValue

/-- Message of the invalid-JSON error (source lines 1104-1107). -/
def invalidJsonMsg (currentTagValue : String) : String :=
  "Invalid JSON format for " ++ sq ++ LINKED_PROMPTS_TAG_KEY ++ sq ++ " tag: " ++ currentTagValue

/-- Translation of `AbstractStore._update_linked_prompts_tag` (source
lines 1081-1116): parse the current tag value when present (hard error on
invalid JSON or a non-array), append the new entries that are not already
present, and serialize the result. -/
def updateLinkedPromptsTag (currentTagValue : Option String)
    (newPromptEntries : List Json) : Except PyErr String :=
  match currentTagValue with
  | none => .ok (dumps (.arr (mergeEntries [] newPromptEntries)))
  | some current =>
    match loads current with
    | none => .error (.mlflow (invalidJsonMsg current) none)
    | some (.arr parsed) => .ok (dumps (.arr (mergeEntries parsed newPromptEntries)))
    | some _ => .error (.mlflow (invalidFormatMsg current) none)

/-- Trace metadata as read through the tracing client. -/
structure TraceInfo where
  tags : TagMap
deriving DecidableEq

/-- The tracing client consumed by `link_prompts_to_trace`: trace lookup
returning the trace info or absent. -/
structure TraceEnv where
  getTraceInfo : String → Option TraceInfo

/-- Message of the missing-trace error (source lines 914-918). -/
def traceNotFoundMsg (traceId : String) : String :=
  "Could not find trace with ID " ++ sq ++ traceId ++ sq ++ " to which to link prompts."

/-- Translation of `AbstractStore.link_prompts_to_trace` (source lines
899-941).  The returned value records the observable outcome of the
read-merge-write sequence: `.ok (some v)` means the merged tag value `v`
was written with `set_trace_tag`, `.ok none` means the write was skipped
because the merged value equalled the current one, and `.error e` means
the operation raised before any write (the write is the last step of the
source). -/
def linkPromptsToTrace (env : TraceEnv) (promptVersions : List PromptVersion)
    (traceId : String) : Except PyErr (Option String) :=
  match env.getTraceInfo traceId with
  | none => .error (.mlflow (traceNotFoundMsg traceId) (some "RESOURCE_DOES_NOT_EXIST"))
  | some traceInfo =>
    let newPromptEntries := promptVersions.map linkEntryOfPV
    let currentTagValue := tagGet traceInfo.tags LINKED_PROMPTS_TAG_KEY
    match updateLinkedPromptsTag currentTagValue newPromptEntries with
    | .error e => .error e
    | .ok updated =>
      if currentTagValue = some updated then .ok none else .ok (some updated)

/-- Logged model as read through the tracking store. -/
structure LoggedModel where
  tags : TagMap
deriving DecidableEq

/-- Run as read through the tracking store (`run.data.tags`). -/
structure Run where
  tags : TagMap
deriving DecidableEq

/-- The tracking store consumed by the single-version link operations. -/
structure TrackingEnv where
  getLoggedModel : String → Option LoggedModel
  getRun : String → Option Run

/-- Message of the missing-logged-model error (source lines 1007-1011). -/
def modelNotFoundMsg (modelId name : String) : String :=
  "Could not find model with ID " ++ sq ++ modelId ++ sq ++
    " to which to link prompt " ++ sq ++ name ++ sq ++ "."

/-- Message of the missing-run error (source lines 1052-1056). -/
def runNotFoundMsg (runId name : String) : String :=
  "Could not find run with ID " ++ sq ++ runId ++ sq ++
    " to which to link prompt " ++ sq ++ name ++ sq ++ "."

/-- Exception raised by `prompt_version.name` when `get_prompt_version`
returned `None`: Python raises `AttributeError`, which is not an
`MlflowException`. -/
def noneTypeAttributeError : PyErr :=
  .other ("AttributeError: " ++ sq ++ "NoneType" ++ sq ++ " object has no attribute " ++
    sq ++ "name" ++ sq)

/-- Translation of `AbstractStore.link_prompt_version_to_model` (source
lines 989-1032): resolve the prompt version through `get_prompt_version`,
fetch the logged model (does-not-exist error when absent), build the link
entry (AttributeError when the resolution returned `None`), merge, and
write the merged tag value unless it equals the current one.  The result
encodes the outcome as in `linkPromptsToTrace`. -/
def linkPromptVersionToModel (reg : RegistryEnv) (tracking : TrackingEnv)
    (name version modelId : String) : Except PyErr (Option String) :=
  match getPromptVersion reg name version with
  | .error e => .error e
  | .ok promptVersionOpt =>
    match tracking.getLoggedModel modelId with
    | none => .error (.mlflow (modelNotFoundMsg modelId name) (some "RESOURCE_DOES_NOT_EXIST"))
    | some loggedModel =>
      match promptVersionOpt with
      | none => .error noneTypeAttributeError
      | some promptVersion =>
        let currentTagValue := tagGet loggedModel.tags LINKED_PROMPTS_TAG_KEY
        match updateLinkedPromptsTag currentTagValue [linkEntryOfPV promptVersion] with
        | .error e => .error e
        | .ok updated =>
          if currentTagValue = some updated then .ok none else .ok (some updated)

/-- Translation of `AbstractStore.link_prompt_version_to_run` (source
lines 1034-1079), with the same shape as the logged-model variant. -/
def linkPromptVersionToRun (reg : RegistryEnv) (tracking : TrackingEnv)
    (name version runId : String) : Except PyErr (Option String) :=
  match getPromptVersion reg name version with
  | .error e => .error e
  | .ok promptVersionOpt =>
    match tracking.getRun runId with
    | none => .error (.mlflow (runNotFoundMsg runId name) (some "RESOURCE_DOES_NOT_EXIST"))
    | some run =>
      match promptVersionOpt with
      | none => .error noneTypeAttributeError
      | some promptVersion =>
        let currentTagValue := tagGet run.tags LINKED_PROMPTS_TAG_KEY
        match updateLinkedPromptsTag currentTagValue [linkEntryOfPV promptVersion] with
        | .error e => .error e
        | .ok updated =>
          if currentTagValue = some updated then .ok none else .ok (some updated)

/- ## Status poller -/

/-- Modelled from the spec: the string form of the non-terminal status
(`ModelVersionStatus.to_string`, not under src; the spec names the
status values). -/
def PENDING_REGISTRATION : String := "PENDING_REGISTRATION"

/-- Modelled from the spec: the string form of the terminal success
status. -/
def READY : String := "READY"

/-- Outcome of the creation poller: normal return, the timeout error
(naming entity, version, current status and wait time, source lines
489-494), or the creation-failed error (carrying status and status
message, source lines 499-503). -/
inductive AwaitResult where
  | succeeded
  | timedOut (name : String) (version : Int) (status : String) (waitTime : Int)
  | creationFailed (name : String) (version : Int) (status : String)
      (statusMessage : Option String)
deriving DecidableEq

/-- Post-loop check of `_await_model_version_creation_impl` (source lines
499-503), paired with the version it inspected. -/
def awaitFinalCheck (mv : ModelVersion) : ModelVersion × AwaitResult :=
  if mv.status = READY then (mv, .succeeded)
  else (mv, .creationFailed mv.name mv.version mv.status mv.statusMessage)

/-- The polling loop of `_await_model_version_creation_impl` (source lines
488-503) over an explicit environment: `clock k` is the value of the k-th
`time()` call (call 0 computes the deadline) and `fetch k` the result of
the k-th `get_model_version` re-fetch.  The recursion is fuel-indexed
(`none` = fuel exhausted; a stuck-pending run does not terminate until the
clock passes the deadline).  The first component of the result is the
last-observed model version, the one whose status decided the outcome. -/
def awaitGo (clock : Nat → Int) (fetch : Nat → ModelVersion) (maxTime : Int)
    (awaitFor : Int) : Nat → Nat → ModelVersion → Option (ModelVersion × AwaitResult)
  | 0, _, _ => none
  | fuel + 1, k, mv =>
    if mv.status = PENDING_REGISTRATION then
      if clock (k + 1) > maxTime then
        some (mv, .timedOut mv.name mv.version mv.status awaitFor)
      else
        let fetched := fetch k
        if fetched.status = PENDING_REGISTRATION then
          awaitGo clock fetch maxTime awaitFor fuel (k + 1) fetched
        else some (awaitFinalCheck fetched)
    else some (awaitFinalCheck mv)

/-- Translation of `AbstractStore._await_model_version_creation_impl`
(source lines 480-503): the deadline is `clock 0` (the start time) plus
the caller's timeout, and it is checked before each re-fetch. -/
def awaitModelVersionCreationImpl (clock : Nat → Int) (fetch : Nat → ModelVersion)
    (mv : ModelVersion) (awaitCreationFor : Int) (fuel : Nat) :
    Option (ModelVersion × AwaitResult) :=
  awaitGo clock fetch (clock 0 + awaitCreationFor) awaitCreationFor fuel 0 mv

/- ## Lemmas about the merge loop -/

lemma mergeEntries_cons (parsed : List Json) (e : Json) (rest : List Json) :
    mergeEntries parsed (e :: rest) =
      mergeEntries (if entryAlreadyLinked parsed e then parsed else parsed ++ [e]) rest := rfl

lemma mergeEntries_nil (parsed : List Json) : mergeEntries parsed [] = parsed := rfl

/-- When every new entry is already present, the merge loop returns the
array unchanged. -/
lemma mergeEntries_all_present (news : List Json) :
    ∀ parsed, (∀ e ∈ news, entryAlreadyLinked parsed e = true) →
      mergeEntries parsed news = parsed := by
  induction news with
  | nil => intro parsed _; rfl
  | cons e rest ih =>
    intro parsed h
    rw [mergeEntries_cons, if_pos (h e (List.mem_cons_self e rest))]
    exact ih parsed fun x hx => h x (List.mem_cons_of_mem e hx)

/-- The merge loop returns the original array followed by a subsequence of
the new entries, none of which was already present. -/
lemma mergeEntries_shape (news : List Json) :
    ∀ parsed, ∃ appended : List Json,
      mergeEntries parsed news = parsed ++ appended ∧
      appended.Sublist news ∧
      ∀ e ∈ appended, entryAlreadyLinked parsed e = false := by
  induction news with
  | nil => intro parsed; exact ⟨[], by simp [mergeEntries_nil], List.nil_sublist _, by simp⟩
  | cons e rest ih =>
    intro parsed
    by_cases he : entryAlreadyLinked parsed e = true
    · obtain ⟨l, h1, h2, h3⟩ := ih parsed
      refine ⟨l, ?_, h2.cons e, h3⟩
      rw [mergeEntries_cons, if_pos he]
      exact h1
    · obtain ⟨l, h1, h2, h3⟩ := ih (parsed ++ [e])
      refine ⟨e :: l, ?_, h2.cons₂ e, ?_⟩
      · rw [mergeEntries_cons, if_neg he, h1]
        simp
      · intro x hx
        rcases List.mem_cons.mp hx with rfl | hx
        · exact Bool.eq_false_iff.mpr he
        · have h4 := h3 x hx
          have h5 : (entryAlreadyLinked parsed x || entryAlreadyLinked [e] x) = false := by
            rw [← h4]
            simp [entryAlreadyLinked, List.any_append]
          exact (Bool.or_eq_false_iff.mp h5).1

/-- No two entries of the list compare Python-equal (earlier on the left of
`==`, matching the containment test of the source). -/
def PyDistinct (l : List Json) : Prop := l.Pairwise fun a b => pyEq a b = false

/-- The merge loop never introduces a duplicate entry. -/
lemma mergeEntries_distinct (news : List Json) :
    ∀ parsed, PyDistinct parsed → PyDistinct (mergeEntries parsed news) := by
  induction news with
  | nil => intro parsed h; rw [mergeEntries_nil]; exact h
  | cons e rest ih =>
    intro parsed h
    rw [mergeEntries_cons]
    by_cases he : entryAlreadyLinked parsed e = true
    · rw [if_pos he]; exact ih parsed h
    · rw [if_neg he]
      apply ih
      rw [PyDistinct, List.pairwise_append]
      refine ⟨h, List.pairwise_singleton _ _, ?_⟩
      intro a ha b hb
      rw [List.mem_singleton.mp hb]
      have : ¬ (∃ x, x ∈ parsed ∧ pyEq x e = true) := by
        intro ⟨x, hx, hpx⟩
        exact he (List.any_eq_true.mpr ⟨x, hx, hpx⟩)
      exact Bool.eq_false_iff.mpr fun hae => this ⟨a, ha, hae⟩

/- ## Claim C1: idempotence of linking -/

/-- C1: for every target (trace, run, or logged model) whose linked-prompts
tag already contains every {name, version} entry being linked, a second
call to the link operations leaves the linked-prompts tag array unchanged
(the merge returns exactly the parsed array), and the tag write is skipped
when the merged value equals the current tag value. -/
theorem link_idempotent_c1
    (tenv : TraceEnv) (reg : RegistryEnv) (tracking : TrackingEnv)
    (traceId modelId runId name version : String)
    (ti : TraceInfo) (lm : LoggedModel) (run : Run) (pv : PromptVersion)
    (cur : String) (tagArray : List Json) (promptVersions : List PromptVersion)
    (htrace : tenv.getTraceInfo traceId = some ti)
    (htraceTag : tagGet ti.tags LINKED_PROMPTS_TAG_KEY = some cur)
    (hparse : loads cur = some (.arr tagArray))
    (hall : ∀ p ∈ promptVersions, entryAlreadyLinked tagArray (linkEntryOfPV p) = true)
    (hresolve : getPromptVersion reg name version = .ok (some pv))
    (hmodel : tracking.getLoggedModel modelId = some lm)
    (hmodelTag : tagGet lm.tags LINKED_PROMPTS_TAG_KEY = some cur)
    (hrun : tracking.getRun runId = some run)
    (hrunTag : tagGet run.tags LINKED_PROMPTS_TAG_KEY = some cur)
    (hpv : entryAlreadyLinked tagArray (linkEntryOfPV pv) = true) :
    updateLinkedPromptsTag (some cur) (promptVersions.map linkEntryOfPV) =
      .ok (dumps (.arr tagArray)) ∧
    updateLinkedPromptsTag (some cur) [linkEntryOfPV pv] = .ok (dumps (.arr tagArray)) ∧
    (dumps (.arr tagArray) = cur →
      linkPromptsToTrace tenv promptVersions traceId = .ok none ∧
      linkPromptVersionToModel reg tracking name version modelId = .ok none ∧
      linkPromptVersionToRun reg tracking name version runId = .ok none) := by
  have hmergeAll : mergeEntries tagArray (promptVersions.map linkEntryOfPV) = tagArray := by
    apply mergeEntries_all_present
    intro e he
    obtain ⟨p, hp, rfl⟩ := List.mem_map.mp he
    exact hall p hp
  have hmergeOne : mergeEntries tagArray [linkEntryOfPV pv] = tagArray :=
    mergeEntries_all_present _ _ (by simpa using hpv)
  have hupdAll : updateLinkedPromptsTag (some cur) (promptVersions.map linkEntryOfPV) =
      .ok (dumps (.arr tagArray)) := by
    simp [updateLinkedPromptsTag, hparse, hmergeAll]
  have hupdOne : updateLinkedPromptsTag (some cur) [linkEntryOfPV pv] =
      .ok (dumps (.arr tagArray)) := by
    simp [updateLinkedPromptsTag, hparse, hmergeOne]
  refine ⟨hupdAll, hupdOne, fun hskip => ⟨?_, ?_, ?_⟩⟩
  · simp [linkPromptsToTrace, htrace, htraceTag, hupdAll, hskip]
  · simp [linkPromptVersionToModel, hresolve, hmodel, hmodelTag, hupdOne, hskip]
  · simp [linkPromptVersionToRun, hresolve, hrun, hrunTag, hupdOne, hskip]

/- ## Claim C3: link-merge invariant -/

/-- C3: for every current linked-prompts tag value that parses as a JSON
array and every list of new entries built for prompt versions, the merged
array preserves every existing entry in its original order at the front,
appends only entries not already structurally present, in input order (a
subsequence of the input), contains no duplicate entry when the input
array had none, and every appended entry carries its version
string-encoded. -/
theorem link_merge_invariant_c3 (current : String) (tagArray : List Json)
    (promptVersions : List PromptVersion)
    (hparse : loads current = some (.arr tagArray)) :
    ∃ appended : List Json,
      updateLinkedPromptsTag (some current) (promptVersions.map linkEntryOfPV) =
        .ok (dumps (.arr (tagArray ++ appended))) ∧
      appended.Sublist (promptVersions.map linkEntryOfPV) ∧
      (∀ e ∈ appended, entryAlreadyLinked tagArray e = false) ∧
      (PyDistinct tagArray → PyDistinct (tagArray ++ appended)) ∧
      (∀ e ∈ appended, ∃ n v, e = Json.obj [("name", Json.str n), ("version", Json.str v)]) := by
  obtain ⟨appended, hshape, hsub, hnew⟩ :=
    mergeEntries_shape (promptVersions.map linkEntryOfPV) tagArray
  refine ⟨appended, ?_, hsub, hnew, ?_, ?_⟩
  · simp [updateLinkedPromptsTag, hparse, hshape]
  · intro hdist
    have := mergeEntries_distinct (promptVersions.map linkEntryOfPV) tagArray hdist
    rwa [hshape] at this
  · intro e he
    have hm : e ∈ promptVersions.map linkEntryOfPV := hsub.subset he
    obtain ⟨p, _, rfl⟩ := List.mem_map.mp hm
    exact ⟨p.name, toString p.version, rfl⟩

/- ## Concrete fixtures and witnesses for C1 and C3 -/

/-- Prompt version "greeting" v1 (the scenario of spec section 8). -/
def pvGreeting : PromptVersion := ⟨"greeting", 1, none, []⟩

/-- Canonical linked-prompts tag value holding exactly the "greeting" v1
entry, as written by a first link call. -/
def c1Tag : String := "[\x7b\"name\": \"greeting\", \"version\": \"1\"\x7d]"

/-- Trace store with one trace "t1" already carrying the tag. -/
def c1TraceEnv : TraceEnv :=
  ⟨fun tid => if tid = "t1" then some ⟨[(LINKED_PROMPTS_TAG_KEY, c1Tag)]⟩ else none⟩

/-- Registered model backing the "greeting" prompt. -/
def c1Rm : RegisteredModel := ⟨"greeting", none, 0, [(IS_PROMPT_TAG_KEY, "true")]⟩

/-- Marker-tagged model version 1 of "greeting". -/
def c1Mv : ModelVersion :=
  ⟨"greeting", 1, READY, none, "prompt-template", [(IS_PROMPT_TAG_KEY, "true")]⟩

/-- Registry with the "greeting" prompt and its version 1. -/
def c1Reg : RegistryEnv :=
  ⟨fun n => if n = "greeting" then .ok c1Rm else .error (.other "absent"),
   fun n v => if n = "greeting" ∧ v = 1 then .ok c1Mv else .error (.other "absent"),
   fun _ _ => .error (.other "absent")⟩

/-- Tracking store with a logged model "m1" and a run "r1", both already
carrying the tag. -/
def c1Tracking : TrackingEnv :=
  ⟨fun mid => if mid = "m1" then some ⟨[(LINKED_PROMPTS_TAG_KEY, c1Tag)]⟩ else none,
   fun rid => if rid = "r1" then some ⟨[(LINKED_PROMPTS_TAG_KEY, c1Tag)]⟩ else none⟩

/-- Witness for C1: a second link of "greeting" v1 to a trace, a logged
model and a run whose tag already holds that entry leaves the tag value
unchanged and skips all three writes. -/
theorem link_idempotent_c1_witness :
    updateLinkedPromptsTag (some c1Tag) [linkEntryOfPV pvGreeting] = .ok c1Tag ∧
    linkPromptsToTrace c1TraceEnv [pvGreeting] "t1" = .ok none ∧
    linkPromptVersionToModel c1Reg c1Tracking "greeting" "1" "m1" = .ok none ∧
    linkPromptVersionToRun c1Reg c1Tracking "greeting" "1" "r1" = .ok none := by
  have h := link_idempotent_c1 c1TraceEnv c1Reg c1Tracking "t1" "m1" "r1" "greeting" "1"
    ⟨[(LINKED_PROMPTS_TAG_KEY, c1Tag)]⟩ ⟨[(LINKED_PROMPTS_TAG_KEY, c1Tag)]⟩
    ⟨[(LINKED_PROMPTS_TAG_KEY, c1Tag)]⟩ pvGreeting c1Tag [linkEntryOfPV pvGreeting]
    [pvGreeting] rfl rfl rfl
    (fun p hp => by rw [List.mem_singleton.mp hp]; rfl)
    rfl rfl rfl rfl rfl rfl
  obtain ⟨h1, _, h3⟩ := h
  obtain ⟨ht, hm, hr⟩ := h3 rfl
  exact ⟨h1, ht, hm, hr⟩

/-- Prompt version fixture for the C3 witness. -/
def pvMerge : PromptVersion := ⟨"summarize", 2, none, []⟩

/-- Witness for C3 at the empty current array and one new entry. -/
theorem link_merge_invariant_c3_witness :
    ∃ appended : List Json,
      updateLinkedPromptsTag (some "[]") ([pvMerge].map linkEntryOfPV) =
        .ok (dumps (.arr ([] ++ appended))) ∧
      appended.Sublist ([pvMerge].map linkEntryOfPV) ∧
      (∀ e ∈ appended, entryAlreadyLinked [] e = false) ∧
      (PyDistinct [] → PyDistinct ([] ++ appended)) ∧
      (∀ e ∈ appended, ∃ n v, e = Json.obj [("name", Json.str n), ("version", Json.str v)]) :=
  link_merge_invariant_c3 "[]" [] [pvMerge] rfl

/- ## Claim C6: malformed linked-prompts tag -/

/-- C6: for every link operation, when the target's current linked-prompts
tag value is present but is not valid JSON, or parses to something other
than a JSON array, the operation fails with the corresponding hard error
and no tag write happens (an `.error` result precedes the write, which is
the final step of each operation). -/
theorem malformed_linked_prompts_tag_c6
    (tenv : TraceEnv) (reg : RegistryEnv) (tracking : TrackingEnv)
    (traceId modelId runId name version : String)
    (ti : TraceInfo) (lm : LoggedModel) (run : Run) (pv : PromptVersion)
    (cur : String) (promptVersions : List PromptVersion)
    (htrace : tenv.getTraceInfo traceId = some ti)
    (htraceTag : tagGet ti.tags LINKED_PROMPTS_TAG_KEY = some cur)
    (hresolve : getPromptVersion reg name version = .ok (some pv))
    (hmodel : tracking.getLoggedModel modelId = some lm)
    (hmodelTag : tagGet lm.tags LINKED_PROMPTS_TAG_KEY = some cur)
    (hrun : tracking.getRun runId = some run)
    (hrunTag : tagGet run.tags LINKED_PROMPTS_TAG_KEY = some cur)
    (hbad : loads cur = none ∨ ∃ j, loads cur = some j ∧ ∀ xs, j ≠ Json.arr xs) :
    ∃ msg,
      ((loads cur = none → msg = invalidJsonMsg cur) ∧
       (∀ j, loads cur = some j → msg = invalidFormatMsg cur)) ∧
      (∀ entries, updateLinkedPromptsTag (some cur) entries = .error (.mlflow msg none)) ∧
      linkPromptsToTrace tenv promptVersions traceId = .error (.mlflow msg none) ∧
      linkPromptVersionToModel reg tracking name version modelId = .error (.mlflow msg none) ∧
      linkPromptVersionToRun reg tracking name version runId = .error (.mlflow msg none) := by
  have main : ∃ msg,
      ((loads cur = none → msg = invalidJsonMsg cur) ∧
       (∀ j, loads cur = some j → msg = invalidFormatMsg cur)) ∧
      ∀ entries, updateLinkedPromptsTag (some cur) entries = .error (.mlflow msg none) := by
    rcases hbad with hnone | ⟨j, hj, hnotarr⟩
    · refine ⟨invalidJsonMsg cur, ⟨fun _ => rfl, fun j hj => ?_⟩, fun entries => ?_⟩
      · rw [hnone] at hj; cases hj
      · simp [updateLinkedPromptsTag, hnone]
    · refine ⟨invalidFormatMsg cur, ⟨fun hnone => ?_, fun k hk => rfl⟩, fun entries => ?_⟩
      · rw [hnone] at hj; cases hj
      · cases j with
        | arr xs => exact absurd rfl (hnotarr xs)
        | null => simp [updateLinkedPromptsTag, hj]
        | bool b => simp [updateLinkedPromptsTag, hj]
        | num n => simp [updateLinkedPromptsTag, hj]
        | floatLit s => simp [updateLinkedPromptsTag, hj]
        | str s => simp [updateLinkedPromptsTag, hj]
        | obj kvs => simp [updateLinkedPromptsTag, hj]
  obtain ⟨msg, hmsg, hupd⟩ := main
  refine ⟨msg, hmsg, hupd, ?_, ?_, ?_⟩
  · simp [linkPromptsToTrace, htrace, htraceTag, hupd]
  · simp [linkPromptVersionToModel, hresolve, hmodel, hmodelTag, hupd]
  · simp [linkPromptVersionToRun, hresolve, hrun, hrunTag, hupd]

/-- Trace store for the C6 witness: trace "t6" carries a non-JSON tag
value. -/
def c6TraceEnv : TraceEnv :=
  ⟨fun tid => if tid = "t6" then some ⟨[(LINKED_PROMPTS_TAG_KEY, "oops")]⟩ else none⟩

/-- Registered model backing the C6 prompt. -/
def c6Rm : RegisteredModel := ⟨"qa", none, 0, [(IS_PROMPT_TAG_KEY, "true")]⟩

/-- Marker-tagged version 1 of the C6 prompt. -/
def c6Mv : ModelVersion := ⟨"qa", 1, READY, none, "prompt-template", [(IS_PROMPT_TAG_KEY, "true")]⟩

/-- Registry for the C6 witness. -/
def c6Reg : RegistryEnv :=
  ⟨fun n => if n = "qa" then .ok c6Rm else .error (.other "absent"),
   fun n v => if n = "qa" ∧ v = 1 then .ok c6Mv else .error (.other "absent"),
   fun _ _ => .error (.other "absent")⟩

/-- Tracking store for the C6 witness: model "m6" and run "r6" carry the
same non-JSON tag value. -/
def c6Tracking : TrackingEnv :=
  ⟨fun mid => if mid = "m6" then some ⟨[(LINKED_PROMPTS_TAG_KEY, "oops")]⟩ else none,
   fun rid => if rid = "r6" then some ⟨[(LINKED_PROMPTS_TAG_KEY, "oops")]⟩ else none⟩

/-- Witness for C6: all three link operations fail on the non-JSON tag
value "oops" and perform no write. -/
theorem malformed_linked_prompts_tag_c6_witness :
    ∃ msg,
      ((loads "oops" = none → msg = invalidJsonMsg "oops") ∧
       (∀ j, loads "oops" = some j → msg = invalidFormatMsg "oops")) ∧
      (∀ entries, updateLinkedPromptsTag (some "oops") entries = .error (.mlflow msg none)) ∧
      linkPromptsToTrace c6TraceEnv [] "t6" = .error (.mlflow msg none) ∧
      linkPromptVersionToModel c6Reg c6Tracking "qa" "1" "m6" = .error (.mlflow msg none) ∧
      linkPromptVersionToRun c6Reg c6Tracking "qa" "1" "r6" = .error (.mlflow msg none) := by
  have h := malformed_linked_prompts_tag_c6 c6TraceEnv c6Reg c6Tracking "t6" "m6" "r6"
    "qa" "1" ⟨[(LINKED_PROMPTS_TAG_KEY, "oops")]⟩ ⟨[(LINKED_PROMPTS_TAG_KEY, "oops")]⟩
    ⟨[(LINKED_PROMPTS_TAG_KEY, "oops")]⟩
    (modelVersionToPromptVersion c6Mv c6Rm.userTags) "oops" []
    rfl rfl rfl rfl rfl rfl rfl (Or.inl rfl)
  exact h

/- ## Claim C2: `get_prompt` projection -/

/-- C2: for every registered model whose internal tag map carries the
reserved marker with value "true", `get_prompt` returns the Prompt whose
tags are the entity's tag map minus the marker; for every registered model
whose marker is absent or not "true", it returns `none` rather than an
error. -/
theorem get_prompt_projection_c2 (env : RegistryEnv) (name : String)
    (rm : RegisteredModel) (h : env.getRegisteredModel name = .ok rm) :
    (tagGet rm.tags IS_PROMPT_TAG_KEY = some "true" →
      getPrompt env name =
        some ⟨rm.name, rm.description, rm.creationTimestamp, stripPromptMarker rm.tags⟩) ∧
    (¬ tagGet rm.tags IS_PROMPT_TAG_KEY = some "true" → getPrompt env name = none) := by
  constructor
  · intro hm
    simp [getPrompt, h, hm, RegisteredModel.userTags]
  · intro hm
    simp [getPrompt, h, hm]

/-- Registry for the C2 witness: "p" is a prompt with one user tag, "m" a
plain registered model. -/
def c2Env : RegistryEnv :=
  ⟨fun n =>
    if n = "p" then .ok ⟨"p", none, 0, [(IS_PROMPT_TAG_KEY, "true"), ("team", "x")]⟩
    else if n = "m" then .ok ⟨"m", none, 0, [("team", "x")]⟩
    else .error (.other "absent"),
   fun _ _ => .error (.other "absent"),
   fun _ _ => .error (.other "absent")⟩

/-- Witness for C2: the prompt projects with the marker stripped, the
plain model projects to `none`. -/
theorem get_prompt_projection_c2_witness :
    getPrompt c2Env "p" = some ⟨"p", none, 0, [("team", "x")]⟩ ∧
    getPrompt c2Env "m" = none := by
  constructor
  · exact (get_prompt_projection_c2 c2Env "p"
      ⟨"p", none, 0, [(IS_PROMPT_TAG_KEY, "true"), ("team", "x")]⟩ rfl).1 rfl
  · exact (get_prompt_projection_c2 c2Env "m" ⟨"m", none, 0, [("team", "x")]⟩ rfl).2
      (by simp [tagGet, IS_PROMPT_TAG_KEY])

/- ## Claim C5: `get_prompt_version` three-outcome contract -/

/-- C5: when the parent registered model lacks the reserved marker with
value "true", `get_prompt_version` always fails with the hard "registered
as a model, not a prompt" error; otherwise the version argument is
resolved by integer parse first with alias-lookup fallback, a resolved
version lacking the marker yields `none`, and non-MlflowException errors
raised by the lookup are swallowed into `none`. -/
theorem get_prompt_version_contract_c5 (env : RegistryEnv) (name version : String)
    (rm : RegisteredModel) (hrm : env.getRegisteredModel name = .ok rm) :
    (¬ tagGet rm.tags IS_PROMPT_TAG_KEY = some "true" →
      getPromptVersion env name version =
        .error (.mlflow (modelNotPromptMsg name) (some "INVALID_PARAMETER_VALUE"))) ∧
    (tagGet rm.tags IS_PROMPT_TAG_KEY = some "true" →
      (∀ n mv, pyInt version = some n → env.getModelVersion name n = .ok mv →
        getPromptVersion env name version =
          if hasPromptTag mv.tags then .ok (some (modelVersionToPromptVersion mv rm.userTags))
          else .ok none) ∧
      (∀ mv, pyInt version = none → env.getModelVersionByAlias name version = .ok mv →
        getPromptVersion env name version =
          if hasPromptTag mv.tags then .ok (some (modelVersionToPromptVersion mv rm.userTags))
          else .ok none) ∧
      (∀ n m, pyInt version = some n → env.getModelVersion name n = .error (.other m) →
        getPromptVersion env name version = .ok none) ∧
      (∀ m, pyInt version = none → env.getModelVersionByAlias name version = .error (.other m) →
        getPromptVersion env name version = .ok none)) := by
  constructor
  · intro hm
    simp [getPromptVersion, getPromptVersionBody, hrm, hm]
  · intro hm
    refine ⟨?_, ?_, ?_, ?_⟩
    · intro n mv hp hmv
      by_cases hpt : hasPromptTag mv.tags = true
      · simp [getPromptVersion, getPromptVersionBody, hrm, hm, hp, hmv, hpt]
      · simp [getPromptVersion, getPromptVersionBody, hrm, hm, hp, hmv, hpt]
    · intro mv hp hmv
      by_cases hpt : hasPromptTag mv.tags = true
      · simp [getPromptVersion, getPromptVersionBody, hrm, hm, hp, hmv, hpt]
      · simp [getPromptVersion, getPromptVersionBody, hrm, hm, hp, hmv, hpt]
    · intro n m hp herr
      simp [getPromptVersion, getPromptVersionBody, hrm, hm, hp, herr]
    · intro m hp herr
      simp [getPromptVersion, getPromptVersionBody, hrm, hm, hp, herr]

/-- Registered model backing the C5 prompt. -/
def c5Rm : RegisteredModel := ⟨"p5", none, 0, [(IS_PROMPT_TAG_KEY, "true"), ("team", "a")]⟩

/-- Marker-tagged version 3 of the C5 prompt. -/
def c5Mv : ModelVersion :=
  ⟨"p5", 3, READY, none, "prompt-template",
    [(IS_PROMPT_TAG_KEY, "true"), (PROMPT_TEXT_TAG_KEY, "Hi")]⟩

/-- Registry for the C5 witness: "p5" is a prompt with a numeric version 3
and "m5" a plain registered model; the alias lookup always raises a
non-MlflowException. -/
def c5Env : RegistryEnv :=
  ⟨fun n =>
    if n = "p5" then .ok c5Rm
    else if n = "m5" then .ok ⟨"m5", none, 0, []⟩
    else .error (.other "absent"),
   fun n v => if n = "p5" ∧ v = 3 then .ok c5Mv else .error (.other "absent"),
   fun _ _ => .error (.other "backend down")⟩

/-- Witness for C5: the numeric lookup succeeds and projects, the
marker-less parent is a hard error, and a crashing alias lookup is
swallowed into `none`. -/
theorem get_prompt_version_contract_c5_witness :
    getPromptVersion c5Env "p5" "3" =
      .ok (some (modelVersionToPromptVersion c5Mv (stripPromptMarker c5Rm.tags))) ∧
    getPromptVersion c5Env "m5" "3" =
      .error (.mlflow (modelNotPromptMsg "m5") (some "INVALID_PARAMETER_VALUE")) ∧
    getPromptVersion c5Env "p5" "champion" = .ok none := by
  refine ⟨?_, ?_, ?_⟩
  · have h := ((get_prompt_version_contract_c5 c5Env "p5" "3" c5Rm rfl).2 rfl).1 3 c5Mv rfl rfl
    simpa [RegisteredModel.userTags] using h
  · exact (get_prompt_version_contract_c5 c5Env "m5" "3" ⟨"m5", none, 0, []⟩ rfl).1
      (by simp [tagGet, IS_PROMPT_TAG_KEY])
  · exact ((get_prompt_version_contract_c5 c5Env "p5" "champion" c5Rm rfl).2 rfl).2.2.2
      "backend down" rfl rfl

/- ## Claim C7: integer-parse-or-fail rule -/

/-- C7: `delete_prompt_version`, `set_prompt_version_tag` and
`delete_prompt_version_tag` fail with the invalid-version error whenever
the version argument is not integer-parseable, and otherwise delegate to
the underlying model-version operation with the parsed integer version. -/
theorem integer_parse_or_fail_c7 (name version key value : String) :
    (pyInt version = none →
      deletePromptVersion name version = .error (invalidVersionErr version) ∧
      setPromptVersionTag name version key value = .error (invalidVersionErr version) ∧
      deletePromptVersionTag name version key = .error (invalidVersionErr version)) ∧
    (∀ n, pyInt version = some n →
      deletePromptVersion name version = .ok (name, n) ∧
      setPromptVersionTag name version key value = .ok (name, n, key, value) ∧
      deletePromptVersionTag name version key = .ok (name, n, key)) := by
  constructor
  · intro h
    simp [deletePromptVersion, setPromptVersionTag, deletePromptVersionTag, h]
  · intro n h
    simp [deletePromptVersion, setPromptVersionTag, deletePromptVersionTag, h]

/-- Witness for C7 at the spec's own examples: "abc" fails, "3" delegates
with the integer 3. -/
theorem integer_parse_or_fail_c7_witness :
    (deletePromptVersion "greeting" "abc" = .error (invalidVersionErr "abc") ∧
     setPromptVersionTag "greeting" "abc" "k" "v" = .error (invalidVersionErr "abc") ∧
     deletePromptVersionTag "greeting" "abc" "k" = .error (invalidVersionErr "abc")) ∧
    (deletePromptVersion "greeting" "3" = .ok ("greeting", 3) ∧
     setPromptVersionTag "greeting" "3" "k" "v" = .ok ("greeting", 3, "k", "v") ∧
     deletePromptVersionTag "greeting" "3" "k" = .ok ("greeting", 3, "k")) :=
  ⟨(integer_parse_or_fail_c7 "greeting" "abc" "k" "v").1 rfl,
   (integer_parse_or_fail_c7 "greeting" "3" "k" "v").2 3 rfl⟩

/- ## Claim C4: poller contract -/

lemma pending_ne_ready : ¬ PENDING_REGISTRATION = READY := by decide

/-- Outcome of the post-loop check on a version that is no longer
pending. -/
lemma awaitFinalCheck_spec (mv mvf : ModelVersion) (r : AwaitResult)
    (hnp : ¬ mv.status = PENDING_REGISTRATION)
    (h : awaitFinalCheck mv = (mvf, r)) :
    mvf = mv ∧
    (r = .succeeded ↔ mvf.status = READY) ∧
    (∀ n v s w, ¬ r = .timedOut n v s w) ∧
    (∀ n v s m, r = .creationFailed n v s m →
      n = mvf.name ∧ v = mvf.version ∧ s = mvf.status ∧ m = mvf.statusMessage ∧
      ¬ mvf.status = READY ∧ ¬ mvf.status = PENDING_REGISTRATION) := by
  unfold awaitFinalCheck at h
  by_cases hr : mv.status = READY
  · rw [if_pos hr] at h
    obtain ⟨h1, h2⟩ := Prod.mk.injEq .. |>.mp h
    subst h1
    subst h2
    refine ⟨rfl, ⟨fun _ => hr, fun _ => rfl⟩, ?_, ?_⟩
    · intro n v s w hw
      exact AwaitResult.noConfusion hw
    · intro n v s m hm
      exact AwaitResult.noConfusion hm
  · rw [if_neg hr] at h
    obtain ⟨h1, h2⟩ := Prod.mk.injEq .. |>.mp h
    subst h1
    subst h2
    refine ⟨rfl, ?_, ?_, ?_⟩
    · constructor
      · intro hs
        exact AwaitResult.noConfusion hs
      · intro hs
        exact absurd hs hr
    · intro n v s w hw
      exact AwaitResult.noConfusion hw
    · intro n v s m hm
      injection hm with e1 e2 e3 e4
      exact ⟨e1.symm, e2.symm, e3.symm, e4.symm, hr, hnp⟩

/-- Invariant of the polling loop: the result's version is the
last-observed one, success happens exactly on READY, the timeout error is
raised on a still-pending version after the clock passed the deadline, and
the creation-failed error carries a non-READY, non-pending status. -/
lemma awaitGo_spec (clock : Nat → Int) (fetch : Nat → ModelVersion)
    (maxTime awaitFor : Int) :
    ∀ fuel k mv mvf r,
      awaitGo clock fetch maxTime awaitFor fuel k mv = some (mvf, r) →
      (mvf = mv ∨ ∃ j, mvf = fetch j) ∧
      (r = .succeeded ↔ mvf.status = READY) ∧
      (∀ n v s w, r = .timedOut n v s w →
        n = mvf.name ∧ v = mvf.version ∧ s = mvf.status ∧
        mvf.status = PENDING_REGISTRATION ∧ w = awaitFor ∧
        ∃ j, clock (j + 1) > maxTime) ∧
      (∀ n v s m, r = .creationFailed n v s m →
        n = mvf.name ∧ v = mvf.version ∧ s = mvf.status ∧ m = mvf.statusMessage ∧
        ¬ mvf.status = READY ∧ ¬ mvf.status = PENDING_REGISTRATION) := by
  intro fuel
  induction fuel with
  | zero => intro k mv mvf r h; simp [awaitGo] at h
  | succ fuel ih =>
    intro k mv mvf r h
    rw [awaitGo] at h
    by_cases hpend : mv.status = PENDING_REGISTRATION
    · rw [if_pos hpend] at h
      by_cases htime : clock (k + 1) > maxTime
      · rw [if_pos htime] at h
        obtain ⟨h1, h2⟩ := Prod.mk.injEq .. |>.mp (Option.some.inj h)
        subst h1
        subst h2
        refine ⟨Or.inl rfl, ?_, ?_, ?_⟩
        · constructor
          · intro hs
            exact AwaitResult.noConfusion hs
          · intro hs
            exact absurd (hpend.symm.trans hs) pending_ne_ready
        · intro n v s w hw
          injection hw with e1 e2 e3 e4
          exact ⟨e1.symm, e2.symm, e3.symm, hpend, e4.symm, k, htime⟩
        · intro n v s m hm
          exact AwaitResult.noConfusion hm
      · rw [if_neg htime] at h
        by_cases hf : (fetch k).status = PENDING_REGISTRATION
        · rw [if_pos hf] at h
          have hrec := ih (k + 1) (fetch k) mvf r h
          refine ⟨?_, hrec.2.1, hrec.2.2.1, hrec.2.2.2⟩
          rcases hrec.1 with rfl | hj
          · exact Or.inr ⟨k, rfl⟩
          · exact Or.inr hj
        · rw [if_neg hf] at h
          have hfc := awaitFinalCheck_spec (fetch k) mvf r hf (Option.some.inj h)
          refine ⟨?_, hfc.2.1, fun n v s w hw => absurd hw (hfc.2.2.1 n v s w), hfc.2.2.2⟩
          exact Or.inr ⟨k, hfc.1⟩
    · rw [if_neg hpend] at h
      have hfc := awaitFinalCheck_spec mv mvf r hpend (Option.some.inj h)
      exact ⟨Or.inl hfc.1, hfc.2.1,
        fun n v s w hw => absurd hw (hfc.2.2.1 n v s w), hfc.2.2.2⟩

/-- C4: a terminating run of the poller returns normally if and only if
the last-observed status is READY; a timeout error is raised on a version
still pending once the clock passed start time plus timeout (checked
before a re-fetch) and names the entity, version, wait time and current
status; any other status out of PENDING_REGISTRATION raises the
creation-failed error carrying the status and status message. -/
theorem await_version_creation_contract_c4 (clock : Nat → Int)
    (fetch : Nat → ModelVersion) (mv0 : ModelVersion) (awaitFor : Int) (fuel : Nat)
    (mvf : ModelVersion) (r : AwaitResult)
    (h : awaitModelVersionCreationImpl clock fetch mv0 awaitFor fuel = some (mvf, r)) :
    (mvf = mv0 ∨ ∃ j, mvf = fetch j) ∧
    (r = .succeeded ↔ mvf.status = READY) ∧
    (∀ n v s w, r = .timedOut n v s w →
      n = mvf.name ∧ v = mvf.version ∧ s = mvf.status ∧
      mvf.status = PENDING_REGISTRATION ∧ w = awaitFor ∧
      ∃ j, clock (j + 1) > clock 0 + awaitFor) ∧
    (∀ n v s m, r = .creationFailed n v s m →
      n = mvf.name ∧ v = mvf.version ∧ s = mvf.status ∧ m = mvf.statusMessage ∧
      ¬ mvf.status = READY ∧ ¬ mvf.status = PENDING_REGISTRATION) :=
  awaitGo_spec clock fetch (clock 0 + awaitFor) awaitFor fuel 0 mv0 mvf r h

/-- Pending version fixture for the C4 witness. -/
def c4Pending : ModelVersion := ⟨"m4", 1, PENDING_REGISTRATION, none, "s", []⟩

/-- Ready version fixture for the C4 witness. -/
def c4Ready : ModelVersion := ⟨"m4", 1, READY, none, "s", []⟩

/-- Fetch oracle that reports pending for two polls, then ready. -/
def c4Fetch : Nat → ModelVersion := fun k => if k < 2 then c4Pending else c4Ready

/-- Witness for C4: a version turning READY after two poll cycles returns
normally with READY observed last; a version stuck pending past the
deadline times out with the pending status and the caller's wait time. -/
theorem await_version_creation_contract_c4_witness :
    awaitModelVersionCreationImpl (fun k => Int.ofNat k) c4Fetch c4Pending 100 10 =
      some (c4Ready, .succeeded) ∧
    c4Ready.status = READY ∧
    awaitModelVersionCreationImpl (fun k => Int.ofNat (10 * k)) (fun _ => c4Pending)
      c4Pending 25 10 = some (c4Pending, .timedOut "m4" 1 PENDING_REGISTRATION 25) ∧
    (∃ j, Int.ofNat (10 * (j + 1)) > Int.ofNat (10 * 0) + 25) := by
  have h1 : awaitModelVersionCreationImpl (fun k => Int.ofNat k) c4Fetch c4Pending 100 10 =
      some (c4Ready, .succeeded) := rfl
  have h2 : awaitModelVersionCreationImpl (fun k => Int.ofNat (10 * k)) (fun _ => c4Pending)
      c4Pending 25 10 = some (c4Pending, .timedOut "m4" 1 PENDING_REGISTRATION 25) := rfl
  refine ⟨h1, ?_, h2, ?_⟩
  · exact (await_version_creation_contract_c4 (fun k => Int.ofNat k) c4Fetch c4Pending
      100 10 c4Ready .succeeded h1).2.1.mp rfl
  · exact (await_version_creation_contract_c4 (fun k => Int.ofNat (10 * k)) (fun _ => c4Pending)
      c4Pending 25 10 c4Pending (.timedOut "m4" 1 PENDING_REGISTRATION 25) h2).2.2.1
      "m4" 1 PENDING_REGISTRATION 25 rfl |>.2.2.2.2.2

/- ## Claim C8: `create_prompt_version` construction (corrected) -/

/-- Counterexample for C8 as stated: the claim says the response-format
schema is stored under its reserved tag whenever a response format is
given, but the source guards the tag with Python truthiness
(`if response_format:`), so an empty-dictionary response format — given,
but falsy — produces a version with no response-format tag at all. -/
theorem create_prompt_version_c8_counterexample :
    (some (ResponseFormat.dict (Json.obj []))).isSome = true ∧
    ((createPromptVersionRequest "p8" (Template.text "Hello") none none
        (some (ResponseFormat.dict (Json.obj [])))).tags.all
      fun kv => !(kv.1 == RESPONSE_FORMAT_TAG_KEY)) = true :=
  ⟨rfl, rfl⟩

/-- C8 amended: the created version's tag list is the reserved marker,
then — for a string template — the text tag holding the template verbatim
and kind "text", or — for a structured template — the text tag holding its
JSON serialization and kind "chat", then the JSON-serialized
response-format schema under its reserved tag when the given response
format is Python-truthy (and nothing when it is absent or falsy), then the
caller's tags; and the source field is always "prompt-template". -/
theorem create_prompt_version_c8_amended (name : String) (template : Template)
    (description : Option String) (tags : Option TagMap) (rf : Option ResponseFormat) :
    (createPromptVersionRequest name template description tags rf).source =
      "prompt-template" ∧
    (∀ s, template = .text s →
      (createPromptVersionRequest name template description tags rf).tags =
        (IS_PROMPT_TAG_KEY, "true") :: (PROMPT_TEXT_TAG_KEY, s) ::
          (PROMPT_TYPE_TAG_KEY, PROMPT_TYPE_TEXT) ::
          (responseFormatTags rf ++ tags.getD [])) ∧
    (∀ msgs, template = .chat msgs →
      (createPromptVersionRequest name template description tags rf).tags =
        (IS_PROMPT_TAG_KEY, "true") :: (PROMPT_TEXT_TAG_KEY, dumps (.arr msgs)) ::
          (PROMPT_TYPE_TAG_KEY, PROMPT_TYPE_CHAT) ::
          (responseFormatTags rf ++ tags.getD [])) ∧
    (∀ r, rf = some r → responseFormatTruthy (some r) = true →
      responseFormatTags rf =
        [(RESPONSE_FORMAT_TAG_KEY, dumps (convertResponseFormatToDict r))]) ∧
    (responseFormatTruthy rf = false → responseFormatTags rf = []) := by
  refine ⟨rfl, ?_, ?_, ?_, ?_⟩
  · rintro s rfl
    rfl
  · rintro msgs rfl
    rfl
  · rintro r rfl htr
    simp [responseFormatTags, htr]
  · intro hf
    cases rf with
    | none => rfl
    | some r => simp [responseFormatTags, hf]

/-- Witness for C8 amended at a truthy pydantic response format with a
caller tag. -/
theorem create_prompt_version_c8_witness :
    (createPromptVersionRequest "p8" (Template.text "Hi") none (some [("k", "v")])
        (some (ResponseFormat.pydanticModel (Json.obj [("type", Json.str "object")])))).tags =
      (IS_PROMPT_TAG_KEY, "true") :: (PROMPT_TEXT_TAG_KEY, "Hi") ::
        (PROMPT_TYPE_TAG_KEY, PROMPT_TYPE_TEXT) ::
        (responseFormatTags
            (some (ResponseFormat.pydanticModel (Json.obj [("type", Json.str "object")]))) ++
          [("k", "v")]) :=
  (create_prompt_version_c8_amended "p8" (Template.text "Hi") none (some [("k", "v")])
    (some (ResponseFormat.pydanticModel (Json.obj [("type", Json.str "object")])))).2.1
    "Hi" rfl

/- ## Claim C9: alias pass-through (corrected) -/

/-- Registered model backing the C9 prompt. -/
def c9Rm : RegisteredModel := ⟨"p9", none, 0, [(IS_PROMPT_TAG_KEY, "true")]⟩

/-- Marker-tagged version 9 of the C9 prompt, reached by version-number
lookup. -/
def c9MvNum : ModelVersion :=
  ⟨"p9", 9, READY, none, "prompt-template", [(IS_PROMPT_TAG_KEY, "true")]⟩

/-- Marker-tagged version 3 of the C9 prompt, pointed to by the alias
"9". -/
def c9MvAlias : ModelVersion :=
  ⟨"p9", 3, READY, none, "prompt-template", [(IS_PROMPT_TAG_KEY, "true")]⟩

/-- Registry for C9: the alias "9" points at version 3 while a version
number 9 also exists. -/
def c9Env : RegistryEnv :=
  ⟨fun n => if n = "p9" then .ok c9Rm else .error (.other "absent"),
   fun n v => if n = "p9" ∧ v = 9 then .ok c9MvNum else .error (.mlflow "not found" none),
   fun n a => if n = "p9" ∧ a = "9" then .ok c9MvAlias else .error (.mlflow "not found" none)⟩

/-- Version number of a successful prompt-version result. -/
def resultVersion : Except PyErr (Option PromptVersion) → Option Int
  | .ok (some pv) => some pv.version
  | _ => none

/-- Counterexample for C9 as stated: `get_prompt_version_by_alias`
delegates to `get_prompt_version`, which attempts integer parse first, so
an integer-parseable alias string is treated as a version number, not as
an alias: on the alias "9" the code resolves version 9 while the spec-side
alias lookup resolves version 3. -/
theorem get_prompt_version_by_alias_c9_counterexample :
    resultVersion (getPromptVersionByAlias c9Env "p9" "9") = some 9 ∧
    resultVersion (getPromptVersionByAliasSpec c9Env "p9" "9") = some 3 ∧
    getPromptVersionByAlias c9Env "p9" "9" ≠ getPromptVersionByAliasSpec c9Env "p9" "9" := by
  refine ⟨rfl, rfl, fun h => ?_⟩
  have h2 := congrArg resultVersion h
  rw [show resultVersion (getPromptVersionByAlias c9Env "p9" "9") = some 9 from rfl] at h2
  rw [show resultVersion (getPromptVersionByAliasSpec c9Env "p9" "9") = some 3 from rfl] at h2
  exact absurd h2 (by decide)

/-- C9 amended: `get_prompt_version_by_alias` is equivalent to resolving
through the store's alias lookup and projecting to a PromptVersion view
whenever the alias string is not integer-parseable; an integer-parseable
alias string is instead treated as a version number by the delegation to
`get_prompt_version`. -/
theorem get_prompt_version_by_alias_c9_amended (env : RegistryEnv)
    (name aliasName : String) (h : pyInt aliasName = none) :
    getPromptVersionByAlias env name aliasName =
      getPromptVersionByAliasSpec env name aliasName := by
  simp [getPromptVersionByAlias, getPromptVersion, getPromptVersionBody,
    getPromptVersionByAliasSpec, h]

/-- Witness for C9 amended at the non-numeric alias "champ". -/
theorem get_prompt_version_by_alias_c9_witness :
    pyInt "champ" = none ∧
    getPromptVersionByAlias c9Env "p9" "champ" =
      getPromptVersionByAliasSpec c9Env "p9" "champ" :=
  ⟨rfl, get_prompt_version_by_alias_c9_amended c9Env "p9" "champ" rfl⟩

/- ## Claim C10: resolution precondition of single-version linking -/

/-- The merge helper only ever raises `MlflowException` values. -/
lemma updateLinkedPromptsTag_error_mlflow (cur : Option String) (entries : List Json)
    (e : PyErr) (h : updateLinkedPromptsTag cur entries = .error e) :
    ∃ m, e = .mlflow m none := by
  cases cur with
  | none => simp [updateLinkedPromptsTag] at h
  | some s =>
    cases hl : loads s with
    | none =>
      simp [updateLinkedPromptsTag, hl] at h
      exact ⟨invalidJsonMsg s, h.symm⟩
    | some j =>
      cases j with
      | arr xs => simp [updateLinkedPromptsTag, hl] at h
      | null =>
        simp [updateLinkedPromptsTag, hl] at h
        exact ⟨invalidFormatMsg s, h.symm⟩
      | bool b =>
        simp [updateLinkedPromptsTag, hl] at h
        exact ⟨invalidFormatMsg s, h.symm⟩
      | num n =>
        simp [updateLinkedPromptsTag, hl] at h
        exact ⟨invalidFormatMsg s, h.symm⟩
      | floatLit raw =>
        simp [updateLinkedPromptsTag, hl] at h
        exact ⟨invalidFormatMsg s, h.symm⟩
      | str t =>
        simp [updateLinkedPromptsTag, hl] at h
        exact ⟨invalidFormatMsg s, h.symm⟩
      | obj kvs =>
        simp [updateLinkedPromptsTag, hl] at h
        exact ⟨invalidFormatMsg s, h.symm⟩

/-- With the prompt version resolved, the model-link operation either
raises an `MlflowException` from the merge or returns an outcome — never
the attribute error. -/
lemma linkPromptVersionToModel_resolved (reg : RegistryEnv) (tracking : TrackingEnv)
    (name version modelId : String) (pv : PromptVersion) (lm : LoggedModel)
    (hres : getPromptVersion reg name version = .ok (some pv))
    (hlm : tracking.getLoggedModel modelId = some lm) :
    (∃ m, linkPromptVersionToModel reg tracking name version modelId =
      .error (.mlflow m none)) ∨
    (∃ o, linkPromptVersionToModel reg tracking name version modelId = .ok o) := by
  cases hupd : updateLinkedPromptsTag (tagGet lm.tags LINKED_PROMPTS_TAG_KEY)
      [linkEntryOfPV pv] with
  | error e =>
    obtain ⟨m, rfl⟩ := updateLinkedPromptsTag_error_mlflow _ _ _ hupd
    exact Or.inl ⟨m, by simp [linkPromptVersionToModel, hres, hlm, hupd]⟩
  | ok updated =>
    by_cases hc : tagGet lm.tags LINKED_PROMPTS_TAG_KEY = some updated
    · rw [hc] at hupd
      exact Or.inr ⟨none, by simp [linkPromptVersionToModel, hres, hlm, hc, hupd]⟩
    · exact Or.inr ⟨some updated, by simp [linkPromptVersionToModel, hres, hlm, hupd, hc]⟩

/-- With the prompt version resolved, the run-link operation either raises
an `MlflowException` from the merge or returns an outcome — never the
attribute error. -/
lemma linkPromptVersionToRun_resolved (reg : RegistryEnv) (tracking : TrackingEnv)
    (name version runId : String) (pv : PromptVersion) (run : Run)
    (hres : getPromptVersion reg name version = .ok (some pv))
    (hrun : tracking.getRun runId = some run) :
    (∃ m, linkPromptVersionToRun reg tracking name version runId =
      .error (.mlflow m none)) ∨
    (∃ o, linkPromptVersionToRun reg tracking name version runId = .ok o) := by
  cases hupd : updateLinkedPromptsTag (tagGet run.tags LINKED_PROMPTS_TAG_KEY)
      [linkEntryOfPV pv] with
  | error e =>
    obtain ⟨m, rfl⟩ := updateLinkedPromptsTag_error_mlflow _ _ _ hupd
    exact Or.inl ⟨m, by simp [linkPromptVersionToRun, hres, hrun, hupd]⟩
  | ok updated =>
    by_cases hc : tagGet run.tags LINKED_PROMPTS_TAG_KEY = some updated
    · rw [hc] at hupd
      exact Or.inr ⟨none, by simp [linkPromptVersionToRun, hres, hrun, hc, hupd]⟩
    · exact Or.inr ⟨some updated, by simp [linkPromptVersionToRun, hres, hrun, hupd, hc]⟩

/-- C10: when `get_prompt_version` resolves to absent, both single-version
link operations fail — with the attribute error at link-entry construction
when the target exists — and never reach the tag write (an `.error` result
precedes the write); when the resolution yields a prompt version, that
failure branch is unreachable. -/
theorem link_resolution_precondition_c10 (reg : RegistryEnv) (tracking : TrackingEnv)
    (name version modelId runId : String) :
    (getPromptVersion reg name version = .ok none →
      (∃ e, linkPromptVersionToModel reg tracking name version modelId = .error e) ∧
      (∃ e, linkPromptVersionToRun reg tracking name version runId = .error e) ∧
      (∀ lm, tracking.getLoggedModel modelId = some lm →
        linkPromptVersionToModel reg tracking name version modelId =
          .error noneTypeAttributeError) ∧
      (∀ run, tracking.getRun runId = some run →
        linkPromptVersionToRun reg tracking name version runId =
          .error noneTypeAttributeError)) ∧
    (∀ pv, getPromptVersion reg name version = .ok (some pv) →
      linkPromptVersionToModel reg tracking name version modelId ≠
        .error noneTypeAttributeError ∧
      linkPromptVersionToRun reg tracking name version runId ≠
        .error noneTypeAttributeError) := by
  constructor
  · intro hres
    refine ⟨?_, ?_, ?_, ?_⟩
    · cases hlm : tracking.getLoggedModel modelId with
      | none =>
        exact ⟨.mlflow (modelNotFoundMsg modelId name) (some "RESOURCE_DOES_NOT_EXIST"),
          by simp [linkPromptVersionToModel, hres, hlm]⟩
      | some lm =>
        exact ⟨noneTypeAttributeError, by simp [linkPromptVersionToModel, hres, hlm]⟩
    · cases hrun : tracking.getRun runId with
      | none =>
        exact ⟨.mlflow (runNotFoundMsg runId name) (some "RESOURCE_DOES_NOT_EXIST"),
          by simp [linkPromptVersionToRun, hres, hrun]⟩
      | some run =>
        exact ⟨noneTypeAttributeError, by simp [linkPromptVersionToRun, hres, hrun]⟩
    · intro lm hlm
      simp [linkPromptVersionToModel, hres, hlm]
    · intro run hrun
      simp [linkPromptVersionToRun, hres, hrun]
  · intro pv hres
    constructor
    · cases hlm : tracking.getLoggedModel modelId with
      | none =>
        have heq : linkPromptVersionToModel reg tracking name version modelId =
            .error (.mlflow (modelNotFoundMsg modelId name)
              (some "RESOURCE_DOES_NOT_EXIST")) := by
          simp [linkPromptVersionToModel, hres, hlm]
        rw [heq]
        intro hcontra
        injection hcontra with h'
        exact PyErr.noConfusion h'
      | some lm =>
        rcases linkPromptVersionToModel_resolved reg tracking name version modelId pv lm
            hres hlm with ⟨m, heq⟩ | ⟨o, heq⟩
        · rw [heq]
          intro hcontra
          injection hcontra with h'
          exact PyErr.noConfusion h'
        · rw [heq]
          intro hcontra
          exact Except.noConfusion hcontra
    · cases hrun : tracking.getRun runId with
      | none =>
        have heq : linkPromptVersionToRun reg tracking name version runId =
            .error (.mlflow (runNotFoundMsg runId name)
              (some "RESOURCE_DOES_NOT_EXIST")) := by
          simp [linkPromptVersionToRun, hres, hrun]
        rw [heq]
        intro hcontra
        injection hcontra with h'
        exact PyErr.noConfusion h'
      | some run =>
        rcases linkPromptVersionToRun_resolved reg tracking name version runId pv run
            hres hrun with ⟨m, heq⟩ | ⟨o, heq⟩
        · rw [heq]
          intro hcontra
          injection hcontra with h'
          exact PyErr.noConfusion h'
        · rw [heq]
          intro hcontra
          exact Except.noConfusion hcontra

/-- Registry for the C10 witness: "p10" is a prompt whose version 1 lacks
the marker, so resolution yields absent; "q10" is a prompt whose version 1
carries the marker, so resolution succeeds. -/
def c10Reg : RegistryEnv :=
  ⟨fun n =>
    if n = "p10" then .ok ⟨"p10", none, 0, [(IS_PROMPT_TAG_KEY, "true")]⟩
    else if n = "q10" then .ok ⟨"q10", none, 0, [(IS_PROMPT_TAG_KEY, "true")]⟩
    else .error (.other "absent"),
   fun n v =>
    if n = "p10" ∧ v = 1 then .ok ⟨"p10", 1, READY, none, "prompt-template", []⟩
    else if n = "q10" ∧ v = 1 then
      .ok ⟨"q10", 1, READY, none, "prompt-template", [(IS_PROMPT_TAG_KEY, "true")]⟩
    else .error (.other "absent"),
   fun _ _ => .error (.other "absent")⟩

/-- Tracking store for the C10 witness: model "m10" and run "r10" exist
with no tags. -/
def c10Tracking : TrackingEnv :=
  ⟨fun mid => if mid = "m10" then some ⟨[]⟩ else none,
   fun rid => if rid = "r10" then some ⟨[]⟩ else none⟩

/-- Witness for C10: an absent resolution makes both link operations fail
with the attribute error, and a successful resolution never produces that
error. -/
theorem link_resolution_precondition_c10_witness :
    getPromptVersion c10Reg "p10" "1" = .ok none ∧
    linkPromptVersionToModel c10Reg c10Tracking "p10" "1" "m10" =
      .error noneTypeAttributeError ∧
    linkPromptVersionToRun c10Reg c10Tracking "p10" "1" "r10" =
      .error noneTypeAttributeError ∧
    linkPromptVersionToModel c10Reg c10Tracking "q10" "1" "m10" ≠
      .error noneTypeAttributeError ∧
    linkPromptVersionToRun c10Reg c10Tracking "q10" "1" "r10" ≠
      .error noneTypeAttributeError := by
  have habs := (link_resolution_precondition_c10 c10Reg c10Tracking "p10" "1" "m10" "r10").1 rfl
  have hok := (link_resolution_precondition_c10 c10Reg c10Tracking "q10" "1" "m10" "r10").2
    ⟨"q10", 1, none, []⟩ rfl
  exact ⟨rfl, habs.2.2.1 ⟨[]⟩ rfl, habs.2.2.2 ⟨[]⟩ rfl, hok.1, hok.2⟩

end MlflowRegistry
